import Mathlib

/-!
Verification development for the GePost posting bot (src/GePost.py).

The script periodically selects one illustration from the user's paginated
Pixiv bookmarks and posts it to a Telegram channel.  This file gives a
shallow embedding of its core logic:

* `calculate_next_interval` — the jittered-interval computation; the single
  `random.randint` draw is passed in explicitly (`rngDraw`), and the second
  component of the result counts how many RNG draws the call consumed.
* `is_quiet_hours` — the quiet-hours predicate, with the current hour passed
  explicitly instead of being read from the wall clock.
* `runCollect` / `runSession` — the paginated sampling session of
  `get_random_pixiv_art_safe`.  The Pixiv API is abstracted as a `Fetcher`:
  the k-th call either returns a page (item list plus optional pagination
  cursor), returns a falsy result, or raises.  The session additionally
  produces a trace of externally visible events (page fetches and the
  mandatory inter-page `asyncio.sleep` calls) and an exception flag; the
  surrounding `try/except` of the Python code maps the flag to a `none`
  ("NotFound") result.  The uniform draw of `random.choice` is passed in as
  an index into the accumulated list.
* `runCycle` / `runCycles` — one iteration of the `run_bot` scheduler loop
  (wait, quiet-hours gate, sample, publish) and the infinite iteration of it.
-/

set_option autoImplicit false

namespace GePost

/-- Delay between Pixiv requests, `PIXIV_REQUEST_DELAY = 1.0` seconds in the
source (the float constant is represented as the rational 1). -/
def PIXIV_REQUEST_DELAY : ℚ := 1

/-- Hard cap on pages collected per session, `MAX_PAGES_TO_FETCH = 40`. -/
def MAX_PAGES_TO_FETCH : Nat := 40

/-- Page size constant of the source, `ILLUSTS_PER_PAGE = 30`. -/
def ILLUSTS_PER_PAGE : Nat := 30

/-- Quiet-hours window as stored in the configuration dictionary
(`quiet_hours.enabled/start_hour/end_hour`). -/
structure QuietHours where
  enabled : Bool
  start_hour : Nat
  end_hour : Nat
deriving DecidableEq

/-- Configuration fields of `config` that the scheduler loop reads.  The
credential/channel strings are irrelevant to the modelled logic and omitted. -/
structure BotConfig where
  interval_hours : Int
  interval_minutes : Int
  interval_deviation_minutes : Int
  post_immediately_on_start : Bool
  quiet_hours : Option QuietHours
deriving DecidableEq

/-- Base interval in seconds as computed in `run_bot`:
`interval_hours * 3600 + interval_minutes * 60`. -/
def base_interval_seconds (cfg : BotConfig) : Int :=
  cfg.interval_hours * 3600 + cfg.interval_minutes * 60

/-- Embedding of `calculate_next_interval(base_seconds, deviation_minutes)`.
`rngDraw` is the value that `random.randint(-deviation_minutes * 60,
deviation_minutes * 60)` would return on the randomized branch; the second
component of the result is the number of RNG draws the call performed, so the
`deviation_minutes == 0` branch is visibly draw-free. -/
def calculate_next_interval (base_seconds deviation_minutes rngDraw : Int) :
    Int × Nat :=
  if deviation_minutes = 0 then
    (base_seconds, 0)
  else
    (max 60 (base_seconds + rngDraw), 1)

/-- Embedding of `is_quiet_hours(config)`.  The configuration is reduced to
its `quiet_hours` entry (`none` models a config without that key, whose
`quiet.get('enabled', False)` lookup yields `False`), and the Moscow-time
current hour is an explicit argument. -/
def is_quiet_hours (quiet : Option QuietHours) (current_hour : Nat) : Bool :=
  match quiet with
  | none => false
  | some q =>
    if q.enabled = false then
      false
    else if q.end_hour < q.start_hour then
      decide (q.start_hour ≤ current_hour) || decide (current_hour < q.end_hour)
    else
      decide (q.start_hour ≤ current_hour) && decide (current_hour < q.end_hour)

/-- C5: for every hour, `is_quiet_hours` is false without a configured window
and for a disabled window; a non-wrapping window means `start ≤ h < end`, and
a wrapping window means `h ≥ start ∨ h < end`. -/
theorem claim_C5 (h : Nat) (q : QuietHours) (hh : h ≤ 23) :
    is_quiet_hours none h = false ∧
    (q.enabled = false → is_quiet_hours (some q) h = false) ∧
    (q.enabled = true → q.start_hour ≤ q.end_hour →
      (is_quiet_hours (some q) h = true ↔ (q.start_hour ≤ h ∧ h < q.end_hour))) ∧
    (q.enabled = true → q.end_hour < q.start_hour →
      (is_quiet_hours (some q) h = true ↔ (q.start_hour ≤ h ∨ h < q.end_hour))) := by
  refine ⟨rfl, ?_, ?_, ?_⟩
  · intro he
    simp [is_quiet_hours, he]
  · intro he hle
    have hnot : ¬ q.end_hour < q.start_hour := not_lt.mpr hle
    simp [is_quiet_hours, he, hnot]
  · intro he hlt
    simp [is_quiet_hours, he, hlt]

/-- Witness for C5 at the wrapping window 23→5 and hour 2. -/
theorem claim_C5_witness :
    2 ≤ 23 ∧ is_quiet_hours none 2 = false ∧
      is_quiet_hours (some ⟨true, 23, 5⟩) 2 = true :=
  ⟨by decide, (claim_C5 2 ⟨true, 23, 5⟩ (by decide)).1,
    ((claim_C5 2 ⟨true, 23, 5⟩ (by decide)).2.2.2 rfl (by decide)).mpr
      (Or.inr (by decide))⟩

/-- C6: with zero deviation the base interval is returned with no RNG draw;
with deviation `D ≥ 1`, base `B ≥ 60` and a draw in `[-D*60, D*60]`, the
result is `max 60 (B + draw)` (one RNG draw) and lies in
`[max 60 (B - D*60), B + D*60]`. -/
theorem claim_C6 (B D rng B0 rng0 : Int) (hD : 1 ≤ D) (hB : 60 ≤ B)
    (hlo : -(D * 60) ≤ rng) (hhi : rng ≤ D * 60) :
    calculate_next_interval B0 0 rng0 = (B0, 0) ∧
    calculate_next_interval B D rng = (max 60 (B + rng), 1) ∧
    max 60 (B - D * 60) ≤ (calculate_next_interval B D rng).1 ∧
    (calculate_next_interval B D rng).1 ≤ B + D * 60 := by
  have hD0 : ¬ D = 0 := by omega
  refine ⟨by simp [calculate_next_interval], by simp [calculate_next_interval, hD0], ?_, ?_⟩
  · simp only [calculate_next_interval, if_neg hD0]
    rw [max_def, max_def]
    split_ifs <;> omega
  · simp only [calculate_next_interval, if_neg hD0]
    rw [max_def]
    split_ifs <;> omega

/-- Witness for C6 at `B = 3600`, `D = 2`, draw `-120`. -/
theorem claim_C6_witness :
    (1 : Int) ≤ 2 ∧ (60 : Int) ≤ 3600 ∧ -((2 : Int) * 60) ≤ -120 ∧
      (-120 : Int) ≤ 2 * 60 ∧
      calculate_next_interval 0 0 7 = (0, 0) ∧
      calculate_next_interval 3600 2 (-120) = (max 60 (3600 + -120), 1) ∧
      max 60 ((3600 : Int) - 2 * 60) ≤ (calculate_next_interval 3600 2 (-120)).1 ∧
      (calculate_next_interval 3600 2 (-120)).1 ≤ 3600 + 2 * 60 := by
  have h := claim_C6 3600 2 (-120) 0 7 (by decide) (by decide) (by decide) (by decide)
  exact ⟨by decide, by decide, by decide, by decide, h.1, h.2.1, h.2.2.1, h.2.2.2⟩

/-- C9: with `deviation_minutes = 0` the base is returned unchanged for every
base, including bases below the 60-second floor, so the floor only acts on the
randomized branch. -/
theorem claim_C9 (B rng : Int) :
    calculate_next_interval B 0 rng = (B, 0) ∧
    (calculate_next_interval 0 0 rng).1 = 0 ∧
    (calculate_next_interval 30 0 rng).1 = 30 := by
  refine ⟨by simp [calculate_next_interval], ?_, ?_⟩ <;>
    simp [calculate_next_interval]

/-- Candidate illustration as described by the fields the script reads from a
Pixiv `illust` dictionary. -/
structure Candidate where
  id : Nat
  title : String
  authorName : String
  imageUrl : String
  bookmarkCount : Nat
  viewCount : Nat
deriving DecidableEq

/-- One page of `api.user_bookmarks_illust`: the `illusts` list and the
`next_url` pagination cursor (`none` models a falsy/absent cursor). -/
structure PixivPage (α : Type) where
  illusts : List α
  next_url : Option String
deriving DecidableEq

/-- Outcome of one fetcher call: a page, a falsy JSON result, or a raised
exception. -/
inductive FetchResult (α : Type) where
  | ok (page : PixivPage α)
  | falsy
  | exn
deriving DecidableEq

/-- Abstract page fetcher: the result of the k-th fetch of a session
(0-based; fetch 0 is the initial `user_bookmarks_illust` call, fetch k for
k ≥ 1 the call through the k-th pagination cursor). -/
def Fetcher (α : Type) : Type := Nat → FetchResult α

/-- Externally visible events of a sampling session: the k-th page fetch and
an `asyncio.sleep` of the given duration. -/
inductive Event where
  | fetchEv (k : Nat)
  | sleepEv (d : ℚ)
deriving DecidableEq

/-- Boolean recognizer for fetch events. -/
def isFetchEv : Event → Bool
  | .fetchEv _ => true
  | .sleepEv _ => false

/-- Boolean recognizer for sleep events. -/
def isSleepEv : Event → Bool
  | .fetchEv _ => false
  | .sleepEv _ => true

/-- Does a first-page fetch result make `get_random_pixiv_art_safe` return
`NotFound` (and a later-page fetch break the loop) without an exception?
This is `not json_result or not json_result.get('illusts')`. -/
def fetchBreaks {α : Type} : FetchResult α → Bool
  | .ok page => page.illusts.isEmpty
  | .falsy => true
  | .exn => false

/-- Embedding of the `while next_url and pages_collected < MAX_PAGES_TO_FETCH`
loop of `get_random_pixiv_art_safe`.  `fuel` is `maxPages - p` where `p` is
`pages_collected`, so the loop guard `p < maxPages` is exactly `fuel > 0`; `u`
is the current `next_url`; `acc` is `all_illusts`.  Returns the accumulated
items, the event trace of the loop, and whether an exception was raised.
Every iteration first sleeps `PIXIV_REQUEST_DELAY`, then performs fetch
number `p` (all earlier loop fetches appended a page, so the fetch index
equals `pages_collected`). -/
def collectLoop {α : Type} (fetch : Fetcher α) :
    Nat → Nat → Option String → List α → List α × List Event × Bool
  | 0, _, _, acc => (acc, [], false)
  | _ + 1, _, none, acc => (acc, [], false)
  | fuel + 1, p, some _, acc =>
    match fetch p with
    | .exn => (acc, [Event.sleepEv PIXIV_REQUEST_DELAY, Event.fetchEv p], true)
    | .falsy => (acc, [Event.sleepEv PIXIV_REQUEST_DELAY, Event.fetchEv p], false)
    | .ok page =>
      if page.illusts.isEmpty then
        (acc, [Event.sleepEv PIXIV_REQUEST_DELAY, Event.fetchEv p], false)
      else
        let r := collectLoop fetch fuel (p + 1) page.next_url (acc ++ page.illusts)
        (r.1, Event.sleepEv PIXIV_REQUEST_DELAY :: Event.fetchEv p :: r.2.1, r.2.2)

/-- Embedding of the accumulation phase of `get_random_pixiv_art_safe`: the
first fetch, the first-page emptiness check, then `collectLoop` starting from
`pages_collected = 1`.  Returns `(all_illusts, trace, exception raised)`. -/
def runCollect {α : Type} (fetch : Fetcher α) (maxPages : Nat) :
    List α × List Event × Bool :=
  match fetch 0 with
  | .exn => ([], [Event.fetchEv 0], true)
  | .falsy => ([], [Event.fetchEv 0], false)
  | .ok page =>
    if page.illusts.isEmpty then
      ([], [Event.fetchEv 0], false)
    else
      let r := collectLoop fetch (maxPages - 1) 1 page.next_url page.illusts
      (r.1, Event.fetchEv 0 :: r.2.1, r.2.2)

/-- Accumulated `all_illusts` of a session. -/
def accumulated {α : Type} (fetch : Fetcher α) (maxPages : Nat) : List α :=
  (runCollect fetch maxPages).1

/-- Event trace of a session. -/
def sessionTrace {α : Type} (fetch : Fetcher α) (maxPages : Nat) : List Event :=
  (runCollect fetch maxPages).2.1

/-- Whether the session raised an exception (caught by the surrounding
`try/except`). -/
def sessionExn {α : Type} (fetch : Fetcher α) (maxPages : Nat) : Bool :=
  (runCollect fetch maxPages).2.2

/-- Number of page fetches a session performed. -/
def fetchCount {α : Type} (fetch : Fetcher α) (maxPages : Nat) : Nat :=
  (sessionTrace fetch maxPages).countP isFetchEv

/-- Number of inter-page sleeps a session performed. -/
def sleepCount {α : Type} (fetch : Fetcher α) (maxPages : Nat) : Nat :=
  (sessionTrace fetch maxPages).countP isSleepEv

/-- Full result of `get_random_pixiv_art_safe`: `none` is the
`(None, None)` "NotFound" outcome (exception caught, or empty accumulation),
otherwise `random.choice(all_illusts)` where `draw` is the uniform index in
`[0, |all_illusts|)` that the RNG produced. -/
def runSession {α : Type} (fetch : Fetcher α) (maxPages draw : Nat) : Option α :=
  if sessionExn fetch maxPages then none
  else if (accumulated fetch maxPages).isEmpty then none
  else (accumulated fetch maxPages).get? draw

/-- Index into `all_illusts` that `random.choice` selects for a given RNG
draw (`random.choice l` is `l[i]` for the uniform draw `i`), `none` when the
session ends in "NotFound" or the draw is out of range. -/
def chosenSlot {α : Type} (fetch : Fetcher α) (maxPages draw : Nat) : Option Nat :=
  if sessionExn fetch maxPages then none
  else if (accumulated fetch maxPages).isEmpty then none
  else if draw < (accumulated fetch maxPages).length then some draw else none

/-- Test fetcher: `numPages` pages of `perPage` distinct items each, with a
pagination cursor on every page but the last. -/
def pagesFetcher (numPages perPage : Nat) : Fetcher Nat := fun k =>
  if k < numPages then
    FetchResult.ok
      ⟨(List.range perPage).map (fun j => perPage * k + j),
        if k + 1 < numPages then some "next" else none⟩
  else FetchResult.falsy

/-- Test fetcher whose every call raises. -/
def raiseFetcher : Fetcher Nat := fun _ => FetchResult.exn

/-- Test fetcher: first page holds `l` and advertises a cursor, every later
fetch returns `second` (intended: a falsy or empty-page result). -/
def stopAfterFirst {α : Type} (l : List α) (second : FetchResult α) : Fetcher α :=
  fun k => if k = 0 then FetchResult.ok ⟨l, some "cursor"⟩ else second

/-- Alternating suffix of a session trace: `m` repetitions of an inter-page
sleep followed by the next page fetch, with consecutive fetch indices
starting at `p`. -/
def pairTrace : Nat → Nat → List Event
  | 0, _ => []
  | m + 1, p =>
    Event.sleepEv PIXIV_REQUEST_DELAY :: Event.fetchEv p :: pairTrace m (p + 1)

/-- Fetch events in `pairTrace m p` number exactly `m`. -/
theorem pairTrace_countP_fetch : ∀ (m p : Nat), (pairTrace m p).countP isFetchEv = m := by
  intro m
  induction m with
  | zero => intro p; rfl
  | succ m ih => intro p; simp [pairTrace, List.countP_cons, isFetchEv, ih]

/-- Sleep events in `pairTrace m p` number exactly `m`. -/
theorem pairTrace_countP_sleep : ∀ (m p : Nat), (pairTrace m p).countP isSleepEv = m := by
  intro m
  induction m with
  | zero => intro p; rfl
  | succ m ih => intro p; simp [pairTrace, List.countP_cons, isSleepEv, ih]

/-- A `pairTrace` never starts with a fetch event. -/
theorem pairTrace_head_not_fetch (m p k : Nat) :
    ¬ (pairTrace m p).get? 0 = some (Event.fetchEv k) := by
  intro h
  cases m with
  | zero => simp [pairTrace] at h
  | succ m => simp [pairTrace] at h

/-- Inside a `pairTrace`, every fetch event is immediately preceded by an
inter-page sleep. -/
theorem pairTrace_adj : ∀ (m p i k : Nat),
    (pairTrace m p).get? (i + 1) = some (Event.fetchEv k) →
    (pairTrace m p).get? i = some (Event.sleepEv PIXIV_REQUEST_DELAY) := by
  intro m
  induction m with
  | zero => intro p i k h; simp [pairTrace] at h
  | succ m ih =>
    intro p i k h
    match i with
    | 0 => rfl
    | 1 =>
      exfalso
      simp only [pairTrace, List.get?_cons_succ] at h
      exact pairTrace_head_not_fetch m (p + 1) k h
    | i' + 2 =>
      simp only [pairTrace, List.get?_cons_succ] at h ⊢
      exact ih (p + 1) i' k h

/-- The pagination loop produces an alternating sleep/fetch trace of at most
`fuel` rounds, with fetch indices starting at `p`. -/
theorem collectLoop_shape {α : Type} (fetch : Fetcher α) :
    ∀ (fuel p : Nat) (u : Option String) (acc : List α),
      ∃ m, m ≤ fuel ∧ (collectLoop fetch fuel p u acc).2.1 = pairTrace m p := by
  intro fuel
  induction fuel with
  | zero => intro p u acc; exact ⟨0, Nat.le_refl 0, rfl⟩
  | succ fuel ih =>
    intro p u acc
    match u with
    | none => exact ⟨0, Nat.zero_le _, rfl⟩
    | some s =>
      cases hf : fetch p with
      | exn =>
        exact ⟨1, by omega, by simp [collectLoop, hf, pairTrace]⟩
      | falsy =>
        exact ⟨1, by omega, by simp [collectLoop, hf, pairTrace]⟩
      | ok page =>
        by_cases he : page.illusts.isEmpty
        · exact ⟨1, by omega, by simp [collectLoop, hf, he, pairTrace]⟩
        · obtain ⟨m, hm, heq⟩ := ih (p + 1) page.next_url (acc ++ page.illusts)
          exact ⟨m + 1, by omega, by simp [collectLoop, hf, he, pairTrace, heq]⟩

/-- A full session trace is the initial fetch followed by at most
`maxPages - 1` sleep/fetch rounds with consecutive fetch indices. -/
theorem session_shape {α : Type} (fetch : Fetcher α) (maxPages : Nat) :
    ∃ m, m ≤ maxPages - 1 ∧
      sessionTrace fetch maxPages = Event.fetchEv 0 :: pairTrace m 1 := by
  unfold sessionTrace runCollect
  cases hf : fetch 0 with
  | exn => exact ⟨0, Nat.zero_le _, by simp [pairTrace]⟩
  | falsy => exact ⟨0, Nat.zero_le _, by simp [pairTrace]⟩
  | ok page =>
    by_cases he : page.illusts.isEmpty
    · exact ⟨0, Nat.zero_le _, by simp [he, pairTrace]⟩
    · obtain ⟨m, hm, heq⟩ :=
        collectLoop_shape fetch (maxPages - 1) 1 page.next_url page.illusts
      exact ⟨m, hm, by simp [he, heq]⟩

/-- A falsy or empty first page makes the whole session stop with no items,
no exception, and a single fetch in the trace. -/
theorem runCollect_first_break {α : Type} (fetch : Fetcher α) (maxPages : Nat)
    (hb : fetchBreaks (fetch 0) = true) :
    runCollect fetch maxPages = ([], [Event.fetchEv 0], false) := by
  cases hf : fetch 0 with
  | exn => rw [hf] at hb; simp [fetchBreaks] at hb
  | falsy => simp [runCollect, hf]
  | ok page =>
    rw [hf] at hb
    simp only [fetchBreaks] at hb
    simp [runCollect, hf, hb]

/-- A raising first fetch makes the whole session stop with no items, the
exception flag set, and a single fetch in the trace. -/
theorem runCollect_first_exn {α : Type} (fetch : Fetcher α) (maxPages : Nat)
    (hx : fetch 0 = FetchResult.exn) :
    runCollect fetch maxPages = ([], [Event.fetchEv 0], true) := by
  simp [runCollect, hx]

/-- C1: a session performs at most `maxPages` page fetches (for any fetcher,
as long as the cap is at least 1 — the initial fetch is unconditional), and
for a fetcher offering 5 pages of 10 items with cap 3 it performs exactly 3. -/
theorem claim_C1 {α : Type} (fetch : Fetcher α) (maxPages : Nat)
    (h : 1 ≤ maxPages) :
    fetchCount fetch maxPages ≤ maxPages ∧
    fetchCount (pagesFetcher 5 10) 3 = 3 := by
  refine ⟨?_, by decide⟩
  obtain ⟨m, hm, heq⟩ := session_shape fetch maxPages
  unfold fetchCount
  rw [heq]
  simp only [List.countP_cons, isFetchEv, pairTrace_countP_fetch, if_pos]
  omega

/-- Witness for C1 at the 5-page fetcher with cap 3. -/
theorem claim_C1_witness :
    1 ≤ 3 ∧ (fetchCount (pagesFetcher 5 10) 3 ≤ 3 ∧
      fetchCount (pagesFetcher 5 10) 3 = 3) :=
  ⟨by decide, claim_C1 (pagesFetcher 5 10) 3 (by decide)⟩

/-- C2: when the session raises no exception and accumulated items exist, the
result for RNG draw `i` is exactly entry `i` of the full accumulated sequence
(so every accumulated item, from whichever page and position, is reachable),
and each slot `j` is selected by exactly one of the `|accumulatedItems|`
equiprobable draws — selection probability `1/|accumulatedItems|`. -/
theorem claim_C2 {α : Type} (fetch : Fetcher α) (maxPages i j : Nat)
    (hex : sessionExn fetch maxPages = false)
    (hi : i < (accumulated fetch maxPages).length)
    (hj : j < (accumulated fetch maxPages).length) :
    runSession fetch maxPages i = (accumulated fetch maxPages).get? i ∧
    ((Finset.range (accumulated fetch maxPages).length).filter
        (fun k => chosenSlot fetch maxPages k = some j)).card = 1 := by
  have hne : (accumulated fetch maxPages).isEmpty = false := by
    cases hacc : accumulated fetch maxPages with
    | nil => rw [hacc] at hi; simp at hi
    | cons a t => rfl
  constructor
  · simp [runSession, hex, hne]
  · have hfilter :
        ((Finset.range (accumulated fetch maxPages).length).filter
          (fun k => chosenSlot fetch maxPages k = some j)) =
        ((Finset.range (accumulated fetch maxPages).length).filter
          (fun k => k = j)) := by
      apply Finset.filter_congr
      intro k hk
      rw [Finset.mem_range] at hk
      simp [chosenSlot, hex, hne, hk]
    rw [hfilter, Finset.filter_eq']
    simp [Finset.mem_range.mpr hj]

/-- Witness for C2 at a 2-page fetcher with 3 items per page. -/
theorem claim_C2_witness :
    sessionExn (pagesFetcher 2 3) 40 = false ∧
    4 < (accumulated (pagesFetcher 2 3) 40).length ∧
    5 < (accumulated (pagesFetcher 2 3) 40).length ∧
    (runSession (pagesFetcher 2 3) 40 4 = (accumulated (pagesFetcher 2 3) 40).get? 4 ∧
      ((Finset.range (accumulated (pagesFetcher 2 3) 40).length).filter
          (fun k => chosenSlot (pagesFetcher 2 3) 40 k = some 5)).card = 1) :=
  ⟨by decide, by decide, by decide,
    claim_C2 (pagesFetcher 2 3) 40 4 5 (by decide) (by decide) (by decide)⟩

/-- C3: the session trace is the initial fetch followed by alternating
sleep/fetch rounds; consequently every fetch after the first is immediately
preceded by an inter-page sleep of exactly `PIXIV_REQUEST_DELAY`, and the
sleeps number exactly one fewer than the fetches. -/
theorem claim_C3 {α : Type} (fetch : Fetcher α) (maxPages : Nat) :
    (∃ m, sessionTrace fetch maxPages = Event.fetchEv 0 :: pairTrace m 1) ∧
    (∀ i k, (sessionTrace fetch maxPages).get? (i + 1) = some (Event.fetchEv k) →
      (sessionTrace fetch maxPages).get? i = some (Event.sleepEv PIXIV_REQUEST_DELAY)) ∧
    sleepCount fetch maxPages + 1 = fetchCount fetch maxPages := by
  obtain ⟨m, hm, heq⟩ := session_shape fetch maxPages
  refine ⟨⟨m, heq⟩, ?_, ?_⟩
  · intro i k hik
    rw [heq] at hik ⊢
    cases i with
    | zero => exact absurd hik (pairTrace_head_not_fetch m 1 k)
    | succ i' =>
      simp only [List.get?_cons_succ] at hik ⊢
      exact pairTrace_adj m 1 i' k hik
  · unfold sleepCount fetchCount
    rw [heq]
    simp [List.countP_cons, isFetchEv, isSleepEv, pairTrace_countP_fetch,
      pairTrace_countP_sleep]

/-- C4: the session yields "NotFound" (and nothing escapes) whenever the
first fetch raises, the first page is falsy or empty, or an exception occurs
anywhere; and when the first fetch raises, the trace is that single fetch
with no inter-page sleep. -/
theorem claim_C4 {α : Type} (fetch : Fetcher α) (maxPages draw : Nat)
    (h : fetch 0 = FetchResult.exn ∨ fetchBreaks (fetch 0) = true ∨
        sessionExn fetch maxPages = true) :
    runSession fetch maxPages draw = none ∧
    (fetch 0 = FetchResult.exn →
      sessionTrace fetch maxPages = [Event.fetchEv 0] ∧
      sleepCount fetch maxPages = 0) := by
  constructor
  · rcases h with hx | hb | hex
    · simp [runSession, sessionExn, runCollect_first_exn fetch maxPages hx]
    · simp [runSession, sessionExn, accumulated,
        runCollect_first_break fetch maxPages hb]
    · simp [runSession, hex]
  · intro hx
    constructor
    · simp [sessionTrace, runCollect_first_exn fetch maxPages hx]
    · simp [sleepCount, sessionTrace, runCollect_first_exn fetch maxPages hx,
        List.countP_cons, isSleepEv]

/-- Witness for C4 at the always-raising fetcher. -/
theorem claim_C4_witness :
    (raiseFetcher 0 = FetchResult.exn ∨ fetchBreaks (raiseFetcher 0) = true ∨
      sessionExn raiseFetcher 40 = true) ∧
    runSession raiseFetcher 40 0 = none ∧
    sessionTrace raiseFetcher 40 = [Event.fetchEv 0] ∧
    sleepCount raiseFetcher 40 = 0 :=
  ⟨Or.inl rfl, (claim_C4 raiseFetcher 40 0 (Or.inl rfl)).1,
    ((claim_C4 raiseFetcher 40 0 (Or.inl rfl)).2 rfl).1,
    ((claim_C4 raiseFetcher 40 0 (Or.inl rfl)).2 rfl).2⟩

/-- C10: when a fetch after the first breaks the loop (falsy result or empty
item list) without raising, the session keeps the items accumulated so far
and still selects among them instead of returning "NotFound". -/
theorem claim_C10 {α : Type} (l : List α) (second : FetchResult α)
    (maxPages draw : Nat) (hl : l ≠ []) (hsec : fetchBreaks second = true)
    (hmp : 2 ≤ maxPages) (hd : draw < l.length) :
    accumulated (stopAfterFirst l second) maxPages = l ∧
    sessionExn (stopAfterFirst l second) maxPages = false ∧
    fetchCount (stopAfterFirst l second) maxPages = 2 ∧
    runSession (stopAfterFirst l second) maxPages draw = l.get? draw ∧
    runSession (stopAfterFirst l second) maxPages draw ≠ none := by
  have hle : l.isEmpty = false := by
    cases l with
    | nil => exact absurd rfl hl
    | cons a t => rfl
  obtain ⟨f, hf⟩ : ∃ f, maxPages - 1 = f + 1 := ⟨maxPages - 2, by omega⟩
  have h1 : stopAfterFirst l second 1 = second := rfl
  have hcollect : runCollect (stopAfterFirst l second) maxPages =
      (l, [Event.fetchEv 0, Event.sleepEv PIXIV_REQUEST_DELAY, Event.fetchEv 1],
        false) := by
    have h0 : stopAfterFirst l second 0 = FetchResult.ok ⟨l, some "cursor"⟩ := rfl
    rw [runCollect, h0]
    simp only [hle, Bool.false_eq_true, if_false, hf]
    cases hs : second with
    | exn => rw [hs] at hsec; simp [fetchBreaks] at hsec
    | falsy => simp [collectLoop, stopAfterFirst]
    | ok page =>
      rw [hs] at hsec
      simp only [fetchBreaks] at hsec
      simp [collectLoop, stopAfterFirst, hsec]
  have hget : l.get? draw ≠ none := by
    intro hg
    rw [List.get?_eq_none] at hg
    omega
  refine ⟨?_, ?_, ?_, ?_, ?_⟩
  · simp [accumulated, hcollect]
  · simp [sessionExn, hcollect]
  · simp [fetchCount, sessionTrace, hcollect, List.countP_cons, isFetchEv]
  · simp [runSession, sessionExn, accumulated, hcollect, hle]
  · simp only [runSession, sessionExn, accumulated, hcollect, hle]
    simpa using hget

/-- Witness for C10: a two-item first page, a falsy second fetch. -/
theorem claim_C10_witness :
    ([7, 8] : List Nat) ≠ [] ∧
    fetchBreaks (FetchResult.falsy : FetchResult Nat) = true ∧
    2 ≤ 40 ∧ 1 < ([7, 8] : List Nat).length ∧
    (accumulated (stopAfterFirst [7, 8] FetchResult.falsy) 40 = [7, 8] ∧
      sessionExn (stopAfterFirst [7, 8] FetchResult.falsy) 40 = false ∧
      fetchCount (stopAfterFirst [7, 8] FetchResult.falsy) 40 = 2 ∧
      runSession (stopAfterFirst [7, 8] FetchResult.falsy) 40 1 =
        ([7, 8] : List Nat).get? 1 ∧
      runSession (stopAfterFirst [7, 8] FetchResult.falsy) 40 1 ≠ none) :=
  ⟨by decide, rfl, by decide, by decide,
    claim_C10 [7, 8] FetchResult.falsy 40 1 (by decide) rfl (by decide) (by decide)⟩

/-- Externally visible steps of one scheduler cycle: the countdown wait of
the computed number of seconds, the sampler invocation
(`get_random_pixiv_art_safe` via `post_random_art`), and the publisher
invocation (`send_to_telegram`). -/
inductive CycleEvent where
  | waitEv (secs : Int)
  | samplerEv
  | publisherEv
deriving DecidableEq

/-- Classification of one scheduler iteration, as logged by the script. -/
inductive CycleOutcome (α : Type) where
  | posted (c : α) (t : Nat)
  | skippedQuietHours
  | noCandidateFound
  | deliveryFailed
deriving DecidableEq

/-- Behaviour of the Telegram sink for one `bot.send_photo` call: either it
raises, or it delivers and reports `message.date`. -/
structure SinkBeh where
  raises : Bool
  date : Nat
deriving DecidableEq

/-- Embedding of the `try/except` body of `send_to_telegram`: a raising
`send_photo` is caught and turned into a `None` return value, a successful
one returns the message date. -/
def send_to_telegram (sink : SinkBeh) : Option Nat :=
  if sink.raises then none else some sink.date

/-- Per-cycle external inputs of the scheduler loop: the page fetcher, the
uniform `random.choice` draw, the sink behaviour, the current Moscow hour at
the quiet-hours check, and the `random.randint` jitter draw. -/
structure CycleEnv (α : Type) where
  fetch : Fetcher α
  draw : Nat
  sink : SinkBeh
  hour : Nat
  rngDev : Int

/-- One iteration of the `while True` loop of `run_bot`: compute the jittered
interval, run the countdown, check quiet hours, otherwise sample
(`post_random_art` → `get_random_pixiv_art_safe`) and, on a candidate,
publish (`send_to_telegram`).  Returns the cycle's outcome classification and
its event list. -/
def runCycle {α : Type} (cfg : BotConfig) (env : CycleEnv α) :
    CycleOutcome α × List CycleEvent :=
  let interval :=
    (calculate_next_interval (base_interval_seconds cfg)
      cfg.interval_deviation_minutes env.rngDev).1
  if is_quiet_hours cfg.quiet_hours env.hour then
    (CycleOutcome.skippedQuietHours, [CycleEvent.waitEv interval])
  else
    match runSession env.fetch MAX_PAGES_TO_FETCH env.draw with
    | none =>
      (CycleOutcome.noCandidateFound,
        [CycleEvent.waitEv interval, CycleEvent.samplerEv])
    | some c =>
      match send_to_telegram env.sink with
      | none =>
        (CycleOutcome.deliveryFailed,
          [CycleEvent.waitEv interval, CycleEvent.samplerEv,
            CycleEvent.publisherEv])
      | some t =>
        (CycleOutcome.posted c t,
          [CycleEvent.waitEv interval, CycleEvent.samplerEv,
            CycleEvent.publisherEv])

/-- The unbounded scheduler loop: the outcome and events of cycle `n` under
the per-cycle inputs `envs`.  Being total in `n`, it witnesses that no cycle
outcome terminates the loop. -/
def runCycles {α : Type} (cfg : BotConfig) (envs : Nat → CycleEnv α) (n : Nat) :
    CycleOutcome α × List CycleEvent :=
  runCycle cfg (envs n)

/-- Every cycle starts by waiting for the freshly computed jittered interval. -/
theorem runCycle_starts_waiting {α : Type} (cfg : BotConfig) (env : CycleEnv α) :
    (runCycle cfg env).2.head? =
      some (CycleEvent.waitEv
        ((calculate_next_interval (base_interval_seconds cfg)
          cfg.interval_deviation_minutes env.rngDev).1)) := by
  unfold runCycle
  by_cases hq : is_quiet_hours cfg.quiet_hours env.hour
  · simp [hq]
  · simp only [hq, Bool.false_eq_true, if_false]
    cases runSession env.fetch MAX_PAGES_TO_FETCH env.draw with
    | none => rfl
    | some c =>
      cases send_to_telegram env.sink with
      | none => rfl
      | some t => rfl

/-- C7: a cycle whose quiet-hours gate is true after the wait is classified
`SkippedQuietHours`, invokes neither the sampler nor the publisher, and the
loop goes on: the next cycle again starts by waiting its freshly recomputed
jittered interval. -/
theorem claim_C7 {α : Type} (cfg : BotConfig) (envs : Nat → CycleEnv α) (n : Nat)
    (hq : is_quiet_hours cfg.quiet_hours (envs n).hour = true) :
    (runCycles cfg envs n).1 = CycleOutcome.skippedQuietHours ∧
    CycleEvent.samplerEv ∉ (runCycles cfg envs n).2 ∧
    CycleEvent.publisherEv ∉ (runCycles cfg envs n).2 ∧
    (runCycles cfg envs (n + 1)).2.head? =
      some (CycleEvent.waitEv
        ((calculate_next_interval (base_interval_seconds cfg)
          cfg.interval_deviation_minutes (envs (n + 1)).rngDev).1)) := by
  refine ⟨?_, ?_, ?_, runCycle_starts_waiting cfg (envs (n + 1))⟩ <;>
    simp [runCycles, runCycle, hq]

/-- Quiet configuration used by the scheduler witnesses: window 23→5, three
hour base interval, no jitter. -/
def exCfg : BotConfig :=
  ⟨3, 0, 0, false, some ⟨true, 23, 5⟩⟩

/-- Cycle environment at hour 2 (inside the window) with a one-page fetcher
and a raising sink. -/
def exEnvQuiet : CycleEnv Nat :=
  ⟨pagesFetcher 1 1, 0, ⟨true, 0⟩, 2, 0⟩

/-- Cycle environment at hour 12 (outside the window) with a one-page fetcher
and a raising sink. -/
def exEnvFail : CycleEnv Nat :=
  ⟨pagesFetcher 1 1, 0, ⟨true, 0⟩, 12, 0⟩

/-- Witness for C7: quiet hours 23→5, current hour 2. -/
theorem claim_C7_witness :
    is_quiet_hours exCfg.quiet_hours ((fun _ => exEnvQuiet) 3).hour = true ∧
    (runCycles exCfg (fun _ => exEnvQuiet) 3).1 = CycleOutcome.skippedQuietHours ∧
    CycleEvent.samplerEv ∉ (runCycles exCfg (fun _ => exEnvQuiet) 3).2 ∧
    CycleEvent.publisherEv ∉ (runCycles exCfg (fun _ => exEnvQuiet) 3).2 ∧
    (runCycles exCfg (fun _ => exEnvQuiet) 4).2.head? =
      some (CycleEvent.waitEv
        ((calculate_next_interval (base_interval_seconds exCfg)
          exCfg.interval_deviation_minutes
          ((fun _ => exEnvQuiet) 4).rngDev).1)) :=
  ⟨by decide, claim_C7 exCfg (fun _ => exEnvQuiet) 3 (by decide)⟩

/-- C8: when the gate is open, the sampler yields a candidate and the sink
raises, the cycle is classified `DeliveryFailed`, the publisher was invoked
exactly once (no retry within the cycle), and the loop goes on to the next
waiting cycle. -/
theorem claim_C8 {α : Type} (cfg : BotConfig) (envs : Nat → CycleEnv α)
    (n : Nat) (c : α)
    (hq : is_quiet_hours cfg.quiet_hours (envs n).hour = false)
    (hs : runSession (envs n).fetch MAX_PAGES_TO_FETCH (envs n).draw = some c)
    (hp : (envs n).sink.raises = true) :
    (runCycles cfg envs n).1 = CycleOutcome.deliveryFailed ∧
    (runCycles cfg envs n).2.countP (fun e => e = CycleEvent.publisherEv) = 1 ∧
    (runCycles cfg envs (n + 1)).2.head? =
      some (CycleEvent.waitEv
        ((calculate_next_interval (base_interval_seconds cfg)
          cfg.interval_deviation_minutes (envs (n + 1)).rngDev).1)) := by
  refine ⟨?_, ?_, runCycle_starts_waiting cfg (envs (n + 1))⟩ <;>
    simp [runCycles, runCycle, hq, hs, send_to_telegram, hp, List.countP_cons]

/-- Witness for C8: open gate at hour 12, successful sampling, raising sink. -/
theorem claim_C8_witness :
    is_quiet_hours exCfg.quiet_hours ((fun _ => exEnvFail) 3).hour = false ∧
    runSession ((fun _ => exEnvFail) 3).fetch MAX_PAGES_TO_FETCH
      ((fun _ => exEnvFail) 3).draw = some 0 ∧
    ((fun _ => exEnvFail) 3).sink.raises = true ∧
    ((runCycles exCfg (fun _ => exEnvFail) 3).1 = CycleOutcome.deliveryFailed ∧
      (runCycles exCfg (fun _ => exEnvFail) 3).2.countP
        (fun e => e = CycleEvent.publisherEv) = 1 ∧
      (runCycles exCfg (fun _ => exEnvFail) 4).2.head? =
        some (CycleEvent.waitEv
          ((calculate_next_interval (base_interval_seconds exCfg)
            exCfg.interval_deviation_minutes
            ((fun _ => exEnvFail) 4).rngDev).1))) :=
  ⟨by decide, by decide, by decide,
    claim_C8 exCfg (fun _ => exEnvFail) 3 0 (by decide) (by decide) (by decide)⟩

end GePost
